import Mathlib

/-!
Verification of the julius personal-finance backend: a shallow embedding of
the monthly-budget lifecycle (`app/crud/category_budget.py`), the dashboard
aggregations (`app/crud/dashboard.py`), the monthly transaction summary
(`app/crud/transaction.py`) and the batch-allocation HTTP route
(`app/routes/category_budget.py`), together with theorems about the claims
of the specification.

Modelling conventions:
  * Monetary amounts (SQL `Numeric(10,2)` / Python `Decimal` with two
    fractional digits) are represented as integers counting hundredths
    (cents); the claims only involve sums and equalities, which are
    invariant under this fixed-point scaling.
  * A SQLAlchemy session bound to the relational store is a `DB` value;
    every `db.commit()` in the source produces one observable state, which
    the embedding records explicitly where a claim depends on it.
  * Python `str` values are Lean `String`s; the Python string operations
    used by the source (`split('-')`, slicing, `endswith`, `int(...)`,
    f-string rendering, `strptime`) are embedded as executable functions on
    the underlying character lists.
  * Rows carry the column values the source reads and writes; `created_at`
    timestamps are omitted (no claim mentions them).
-/

namespace Julius

/-! ## Characters and digit strings -/

/-- Value of a decimal digit character (Python `int` on a single digit). -/
def digitVal (c : Char) : Nat := c.toNat - 48

/-- Decimal digit character for `n ≤ 9`. -/
def digitChar (n : Nat) : Char := Char.ofNat (48 + n)

/-- Whether `c` is one of the characters `0`–`9`. -/
def isDigitChar (c : Char) : Bool := 48 ≤ c.toNat && c.toNat ≤ 57

/-- Two-digit zero-padded rendering of `m < 100` (Python `f"{m:02d}"`). -/
def digits2 (m : Nat) : List Char := [digitChar (m / 10), digitChar (m % 10)]

/-- Four-digit zero-padded rendering of `y < 10000` (the `YYYY` component). -/
def digits4 (y : Nat) : List Char :=
  [digitChar (y / 1000), digitChar (y / 100 % 10), digitChar (y / 10 % 10), digitChar (y % 10)]

/-- Unpadded decimal rendering of a natural number below 100000, as
produced by the Python f-string `f"{year}"`; the source only renders years
obtained from a four-digit parse plus one, so `n ≤ 10000` on every path. -/
def natChars (n : Nat) : List Char :=
  if n < 10 then [digitChar n]
  else if n < 100 then [digitChar (n / 10), digitChar (n % 10)]
  else if n < 1000 then [digitChar (n / 100), digitChar (n / 10 % 10), digitChar (n % 10)]
  else if n < 10000 then digits4 n
  else [digitChar (n / 10000), digitChar (n / 1000 % 10), digitChar (n / 100 % 10),
    digitChar (n / 10 % 10), digitChar (n % 10)]

/-- Python `f"{n:02d}"`: zero-pad to two characters, longer numbers rendered
in full. -/
def pad2 (n : Nat) : List Char :=
  if n < 100 then digits2 n else natChars n

/-- Python `int(s)` restricted to non-negative all-digit strings; `none`
models the `ValueError` raised on any other input (the source never feeds
`int` a negative literal on the paths under study). -/
def charsToNat? (l : List Char) : Option Nat :=
  if l ≠ [] ∧ l.all isDigitChar then
    some (l.foldl (fun acc c => acc * 10 + digitVal c) 0)
  else none

/-- Python `str.split('-')`: split on every dash, keeping empty pieces, so
that `"".split('-') = [""]` and `"-".split('-') = ["", ""]`. -/
def splitOnDash : List Char → List (List Char)
  | [] => [[]]
  | c :: rest =>
    if c = '-' then [] :: splitOnDash rest
    else
      match splitOnDash rest with
      | head :: tail => (c :: head) :: tail
      | [] => [[c]]

/-- The canonical `YYYY-MM` rendering of a year `y < 10000` and a month
number `m < 100`; every month string in `YYYY-MM` form is `mkMonthStr y m`
for exactly one such pair. -/
def mkMonthStr (y m : Nat) : String := String.mk (digits4 y ++ '-' :: digits2 m)

/-! ## Calendar dates -/

/-- A calendar date as stored in the SQL `Date` column (`datetime.date`). -/
structure Date where
  year : Nat
  month : Nat
  day : Nat
deriving Repr, DecidableEq

/-- SQL `<=` on dates: calendar (lexicographic) order. -/
def dateLE (a b : Date) : Bool :=
  a.year < b.year ||
    (a.year == b.year && (a.month < b.month ||
      (a.month == b.month && a.day ≤ b.day)))

/-- SQL `<` on dates: calendar (lexicographic) order, strict. -/
def dateLT (a b : Date) : Bool :=
  a.year < b.year ||
    (a.year == b.year && (a.month < b.month ||
      (a.month == b.month && a.day < b.day)))

/-- Postgres `to_char(d, 'YYYY-MM')`: zero-padded year-month rendering. -/
def toCharYYYYMM (d : Date) : String := String.mk (digits4 d.year ++ '-' :: digits2 d.month)

/-- Python `datetime.strptime(s, "%Y-%m-%d").date()` restricted to the
zero-padded `YYYY-MM-DD` inputs the source constructs: exactly four year
digits (CPython's `%Y` pattern), a dash, two month digits in 01–12, a dash,
two day digits in 01–31, with `datetime`'s year range `1..9999`.  `none`
models the `ValueError` raised on anything else. -/
def strptimeYMD (s : String) : Option Date :=
  match s.data with
  | [y1, y2, y3, y4, s1, m1, m2, s2, d1, d2] =>
    if s1 = '-' ∧ s2 = '-' ∧ isDigitChar y1 ∧ isDigitChar y2 ∧ isDigitChar y3 ∧
        isDigitChar y4 ∧ isDigitChar m1 ∧ isDigitChar m2 ∧ isDigitChar d1 ∧ isDigitChar d2 then
      let y := ((digitVal y1 * 10 + digitVal y2) * 10 + digitVal y3) * 10 + digitVal y4
      let mo := digitVal m1 * 10 + digitVal m2
      let d := digitVal d1 * 10 + digitVal d2
      if 1 ≤ y ∧ 1 ≤ mo ∧ mo ≤ 12 ∧ 1 ≤ d ∧ d ≤ 31 then some ⟨y, mo, d⟩ else none
    else none
  | _ => none

/-- Python `month.endswith("-12")`: the last three characters are `-12`. -/
def endsWithDash12 (s : String) : Bool :=
  match s.data.reverse with
  | c2 :: c1 :: c0 :: _ => c2 == '2' && c1 == '1' && c0 == '-'
  | _ => false

/-! ## Data model (`app/models/*.py`) -/

/-- A row of the `categories` table. -/
structure Category where
  id : Nat
  user_id : Nat
  name : String
deriving Repr, DecidableEq

/-- A row of the `expenses` table. -/
structure Expense where
  id : Nat
  user_id : Nat
  category_id : Nat
  name : String
deriving Repr, DecidableEq

/-- A row of the `transactions` table; `amount` in cents. -/
structure Transaction where
  id : Nat
  user_id : Nat
  expense_id : Nat
  amount : Int
  transaction_date : Date
deriving Repr, DecidableEq

/-- A row of the `category_budgets` table; `allocated_amount` in cents.
The `is_active` flag is the column the category-budget CRUD reads and
writes on every lifecycle path (the spec's denormalized active-month
flag). -/
structure CategoryBudget where
  id : Nat
  user_id : Nat
  category_id : Nat
  month : String
  allocated_amount : Int
  is_active : Bool
deriving Repr, DecidableEq

/-- The relational store visible to one session.  `nextBudgetId` models the
`category_budgets` primary-key sequence assigning ids to inserted rows. -/
structure DB where
  categories : List Category
  expenses : List Expense
  transactions : List Transaction
  budgets : List CategoryBudget
  nextBudgetId : Nat
deriving Repr, DecidableEq

/-! ## Category-budget CRUD (`app/crud/category_budget.py`) -/

/-- `get_category_budgets_by_month`: all budget rows of `u` whose `month`
column equals `month`, in table order. -/
def get_category_budgets_by_month (db : DB) (u : Nat) (month : String) : List CategoryBudget :=
  db.budgets.filter fun b => b.user_id == u && b.month == month

/-- `get_active_month`: month of the first budget row of `u` with
`is_active = true`, if any. -/
def get_active_month (db : DB) (u : Nat) : Option String :=
  ((db.budgets.filter fun b => b.user_id == u && b.is_active).head?).map CategoryBudget.month

/-- `has_active_month`: whether `get_active_month` returns a month. -/
def has_active_month (db : DB) (u : Nat) : Bool :=
  (get_active_month db u).isSome

/-- `delete_category_budgets_by_month`: bulk delete of the rows of
`(u, month)`, returning the new store and the deleted row count.  In the
source this function ends with its own `db.commit()`. -/
def delete_category_budgets_by_month (db : DB) (u : Nat) (month : String) : DB × Nat :=
  ({ db with budgets := db.budgets.filter fun b => !(b.user_id == u && b.month == month) },
   (db.budgets.filter fun b => b.user_id == u && b.month == month).length)

/-- The rows inserted by the loop of `create_or_update_monthly_budget`: one
active row per allocation entry, ids drawn from the primary-key sequence in
iteration order. -/
def newAllocationRows (db : DB) (u : Nat) (month : String)
    (allocations : List (Nat × Int)) : List CategoryBudget :=
  allocations.enum.map fun p =>
    { id := db.nextBudgetId + p.1, user_id := u, category_id := p.2.1, month := month,
      allocated_amount := p.2.2, is_active := true }

/-- Errors raised (`ValueError`) by `create_or_update_monthly_budget`. -/
inductive AllocError where
  | activeConflict (month : String) (active : String)
  | missingCategories (missing : List Nat)
deriving Repr, DecidableEq

instance {ε α : Type} [DecidableEq ε] [DecidableEq α] : DecidableEq (Except ε α)
  | .ok a, .ok b =>
    if h : a = b then isTrue (by rw [h]) else isFalse (by intro hc; cases hc; exact h rfl)
  | .ok _, .error _ => isFalse (by intro hc; cases hc)
  | .error _, .ok _ => isFalse (by intro hc; cases hc)
  | .error e, .error f =>
    if h : e = f then isTrue (by rw [h]) else isFalse (by intro hc; cases hc; exact h rfl)

/-- Outcome of an operation: the store as of each `db.commit()` it executed,
in order, plus its return value or raised error.  The state the caller
observes after the call is the last committed one (or the initial store if
nothing was committed before the error). -/
structure OpOutcome where
  commits : List DB
  result : Except AllocError (List CategoryBudget)
deriving Repr, DecidableEq

/-- The store left behind by an outcome that started from `db`. -/
def OpOutcome.finalState (o : OpOutcome) (db : DB) : DB :=
  o.commits.getLast?.getD db

/-- `create_or_update_monthly_budget`: after the active-month conflict check
and the category-ownership check, deletes the existing rows of `(u, month)`
(committed inside `delete_category_budgets_by_month`), then inserts one
active row per allocation entry and commits again, returning the created
rows.  `allocations` is the Python dict as its insertion-ordered
(key, value) list. -/
def create_or_update_monthly_budget (db : DB) (u : Nat) (month : String)
    (allocations : List (Nat × Int)) : OpOutcome :=
  match get_active_month db u with
  | some active =>
    if active ≠ month then
      { commits := [], result := .error (.activeConflict month active) }
    else
      let categoryIds := allocations.map Prod.fst
      let cats := db.categories.filter fun c => categoryIds.contains c.id && c.user_id == u
      if cats.length ≠ categoryIds.length then
        { commits := [],
          result := .error (.missingCategories
            (categoryIds.filter fun i => !(cats.map Category.id).contains i)) }
      else
        let db1 := (delete_category_budgets_by_month db u month).1
        let rows := newAllocationRows db1 u month allocations
        let db2 := { db1 with budgets := db1.budgets ++ rows,
                              nextBudgetId := db1.nextBudgetId + rows.length }
        { commits := [db1, db2], result := .ok rows }
  | none =>
    let categoryIds := allocations.map Prod.fst
    let cats := db.categories.filter fun c => categoryIds.contains c.id && c.user_id == u
    if cats.length ≠ categoryIds.length then
      { commits := [],
        result := .error (.missingCategories
          (categoryIds.filter fun i => !(cats.map Category.id).contains i)) }
    else
      let db1 := (delete_category_budgets_by_month db u month).1
      let rows := newAllocationRows db1 u month allocations
      let db2 := { db1 with budgets := db1.budgets ++ rows,
                            nextBudgetId := db1.nextBudgetId + rows.length }
      { commits := [db1, db2], result := .ok rows }

/-- One entry of the per-category breakdown of the monthly budget summary. -/
structure BudgetSummaryEntry where
  id : Nat
  user_id : Nat
  category_id : Nat
  category_name : Option String
  month : String
  allocated_amount : Int
deriving Repr, DecidableEq

/-- The value returned by `get_monthly_budget_summary`. -/
structure MonthlyBudgetSummary where
  month : String
  total_allocated : Int
  categories : List BudgetSummaryEntry
deriving Repr, DecidableEq

/-- `get_monthly_budget_summary`: the rows of `(u, month)` with their
amounts summed, each row listed with its joined category name. -/
def get_monthly_budget_summary (db : DB) (u : Nat) (month : String) : MonthlyBudgetSummary :=
  let budgets := get_category_budgets_by_month db u month
  { month := month,
    total_allocated := (budgets.map CategoryBudget.allocated_amount).sum,
    categories := budgets.map fun b =>
      { id := b.id, user_id := b.user_id, category_id := b.category_id,
        category_name := (db.categories.find? fun c => c.id == b.category_id).map Category.name,
        month := b.month, allocated_amount := b.allocated_amount } }

/-- `open_new_month`: returns `.ok false` when an active month exists,
raises (`.error`) when the month already has rows, and otherwise inserts
one active zero-amount row per category of `u` and commits, returning
`.ok true`. -/
def open_new_month (db : DB) (u : Nat) (month : String) : DB × Except String Bool :=
  if has_active_month db u then (db, .ok false)
  else if ¬(get_category_budgets_by_month db u month).isEmpty then
    (db, .error ("Month " ++ month ++ " already exists. Use reopen instead."))
  else
    let cats := db.categories.filter fun c => c.user_id == u
    let rows := cats.enum.map fun p =>
      ({ id := db.nextBudgetId + p.1, user_id := u, category_id := p.2.id, month := month,
         allocated_amount := 0, is_active := true } : CategoryBudget)
    ({ db with budgets := db.budgets ++ rows, nextBudgetId := db.nextBudgetId + rows.length },
     .ok true)

/-- `reopen_month`: fails when an active month exists or the month has no
rows; otherwise flips `is_active` to `true` on every row of `(u, month)`. -/
def reopen_month (db : DB) (u : Nat) (month : String) : DB × Bool :=
  if has_active_month db u then (db, false)
  else if (get_category_budgets_by_month db u month).isEmpty then (db, false)
  else
    ({ db with budgets := db.budgets.map fun b =>
        if b.user_id == u && b.month == month then { b with is_active := true } else b },
     true)

/-- `close_active_month`: fails when `u` has no active row; otherwise flips
`is_active` to `false` on every active row of `u`. -/
def close_active_month (db : DB) (u : Nat) : DB × Bool :=
  if (db.budgets.filter fun b => b.user_id == u && b.is_active).isEmpty then (db, false)
  else
    ({ db with budgets := db.budgets.map fun b =>
        if b.user_id == u && b.is_active then { b with is_active := false } else b },
     true)

/-! ## Dashboards (`app/crud/dashboard.py`) -/

/-- SQL `SUM(...)` as an aggregate: `NULL` (here `none`) over an empty row
set, otherwise the sum. -/
def sumAgg (l : List Int) : Option Int :=
  match l with
  | [] => none
  | _ => some l.sum

/-- The amounts contributed by the join `Transaction × Expense` on
`Transaction.expense_id = Expense.id` restricted by the given expense
predicate and transaction predicate: one copy of `t.amount` per matching
join pair. -/
def joinAmounts (db : DB) (pe : Expense → Bool) (pt : Transaction → Bool) : List Int :=
  db.transactions.flatMap fun t =>
    if pt t then (db.expenses.filter fun e => t.expense_id == e.id && pe e).map fun _ => t.amount
    else []

/-- One row of the categories dashboard. -/
structure DashboardRow where
  id : Nat
  name : String
  totalSpent : Int
  budget : Option Int
deriving Repr, DecidableEq

/-- `get_categories_dashboard`: for every category of `u`, the first budget
row of `(u, category, month)` (if any) and the summed transaction amounts
joined through `Expense`, restricted by `to_char(transaction_date,
'YYYY-MM') = month`, with `SUM`'s `NULL` replaced by `0.00`. -/
def get_categories_dashboard (db : DB) (u : Nat) (month : String) : List DashboardRow :=
  (db.categories.filter fun c => c.user_id == u).map fun c =>
    { id := c.id, name := c.name,
      totalSpent :=
        (sumAgg (joinAmounts db
          (fun e => e.category_id == c.id && e.user_id == u)
          (fun t => toCharYYYYMM t.transaction_date == month))).getD 0,
      budget :=
        ((db.budgets.filter fun b =>
            b.user_id == u && b.category_id == c.id && b.month == month).head?).map
          CategoryBudget.allocated_amount }

/-- The month reformatting of `get_total_spent_dashboard`: Python
`year, month_num = month.split('-')` followed by
`f"{month_num}/{year[2:]}"`, falling back to the input when the unpacking
raises (that is, when splitting does not yield exactly two parts). -/
def formatMonthDisplay (month : String) : String :=
  match splitOnDash month.data with
  | [year, month_num] => String.mk (month_num ++ '/' :: year.drop 2)
  | _ => month

/-- The value returned by `get_total_spent_dashboard`. -/
structure TotalSpentRow where
  budget : Int
  spent : Int
  month : String
deriving Repr, DecidableEq

/-- `get_total_spent_dashboard`: summed allocations of `(u, month)`, summed
transaction amounts of `u` in the month (joined through `Expense` for the
owner), and the display-formatted month. -/
def get_total_spent_dashboard (db : DB) (u : Nat) (month : String) : TotalSpentRow :=
  { budget :=
      (sumAgg ((db.budgets.filter fun b => b.user_id == u && b.month == month).map
        CategoryBudget.allocated_amount)).getD 0,
    spent :=
      (sumAgg (joinAmounts db (fun e => e.user_id == u)
        (fun t => toCharYYYYMM t.transaction_date == month))).getD 0,
    month := formatMonthDisplay month }

/-! ## Monthly transaction summary (`app/crud/transaction.py`) -/

/-- The date-range computation of `get_monthly_summary` (lines 171–178):
`start_date` parses `f"{month}-01"`; for a month ending in `"-12"` the end
date parses `f"{int(month[:4]) + 1}-01-01"` with the year rendered
unpadded, otherwise it parses `f"{month[:4]}-{int(month[-2:]) + 1:02d}-01"`
with the year kept as the original string slice.  `none` models a
propagated `ValueError`. -/
def monthDateRange (month : String) : Option (Date × Date) :=
  match strptimeYMD (month ++ "-01") with
  | none => none
  | some start_date =>
    if endsWithDash12 month then
      match charsToNat? (month.data.take 4) with
      | none => none
      | some y =>
        match strptimeYMD (String.mk (natChars (y + 1) ++
            ('-' :: '0' :: '1' :: '-' :: '0' :: '1' :: []))) with
        | none => none
        | some end_date => some (start_date, end_date)
    else
      match charsToNat? (month.data.drop (month.data.length - 2)) with
      | none => none
      | some mn =>
        match strptimeYMD (String.mk (month.data.take 4 ++ '-' :: pad2 (mn + 1) ++
            ('-' :: '0' :: '1' :: []))) with
        | none => none
        | some end_date => some (start_date, end_date)

/-- One per-category entry of the monthly summary. -/
structure CategoryTotal where
  name : String
  total : Int
deriving Repr, DecidableEq

/-- The value returned by `get_monthly_summary`. -/
structure MonthlySummary where
  month : String
  total_spending : Int
  categories : List CategoryTotal
deriving Repr, DecidableEq

/-- `get_monthly_summary`: transactions of `u` with `start_date ≤ date <
end_date`, summed in total and grouped by category through the
`Category ⋈ Expense ⋈ Transaction` join; `none` models the `ValueError`
propagated from the date-range computation.  The Python `float(...)`
wrappers are identities on exact cent amounts. -/
def get_monthly_summary (db : DB) (u : Nat) (month : String) : Option MonthlySummary :=
  match monthDateRange month with
  | none => none
  | some (start_date, end_date) =>
    let inRange := fun t : Transaction =>
      t.user_id == u && dateLE start_date t.transaction_date &&
        dateLT t.transaction_date end_date
    let catAmounts := fun c : Category =>
      joinAmounts db (fun e => e.category_id == c.id) inRange
    some
      { month := month,
        total_spending := (sumAgg ((db.transactions.filter inRange).map Transaction.amount)).getD 0,
        categories := (db.categories.filter fun c => !(catAmounts c).isEmpty).map fun c =>
          { name := c.name, total := (catAmounts c).sum } }

/-! ## The batch-allocation HTTP route (`app/routes/category_budget.py`) -/

/-- The request payload `MonthlyBudgetAllocation`: a month string and a list
of `{category_id: amount}` dicts, with the route's `int(category_id_str)`
conversion already applied to the keys. -/
structure MonthlyBudgetAllocation where
  month : String
  allocations : List (List (Nat × Int))
deriving Repr, DecidableEq

/-- Python dict assignment `d[k] = v`: overwrite in place when the key is
present, append otherwise. -/
def dictInsert (d : List (Nat × Int)) (k : Nat) (v : Int) : List (Nat × Int) :=
  if d.any fun p => p.1 == k then d.map fun p => if p.1 == k then (k, v) else p
  else d ++ [(k, v)]

/-- The route's flattening loop building `allocations_dict` from the list of
per-entry dicts. -/
def flattenAllocations (l : List (List (Nat × Int))) : List (Nat × Int) :=
  (l.flatMap id).foldl (fun d p => dictInsert d p.1 p.2) []

/-- Errors surfaced by the route as HTTP 400 responses. -/
inductive RouteError where
  | noActiveMonth
  | badRequest (e : AllocError)
deriving Repr, DecidableEq

/-- Outcome of the route handler: committed states and response. -/
structure RouteOutcome where
  commits : List DB
  response : Except RouteError MonthlyBudgetSummary
deriving Repr, DecidableEq

/-- `allocate_current_monthly_budget` (the `POST /allocate-current-month`
handler): resolves the user's active month — rejecting with HTTP 400 before
any write when there is none — then flattens the payload's allocation dicts
and calls `create_or_update_monthly_budget` on the *active* month, returning
the refreshed summary.  The payload's `month` field is never read. -/
def allocate_current_monthly_budget (db : DB) (u : Nat)
    (payload : MonthlyBudgetAllocation) : RouteOutcome :=
  match get_active_month db u with
  | none => { commits := [], response := .error .noActiveMonth }
  | some month =>
    let o := create_or_update_monthly_budget db u month (flattenAllocations payload.allocations)
    match o.result with
    | .error e => { commits := o.commits, response := .error (.badRequest e) }
    | .ok _ =>
      { commits := o.commits,
        response := .ok (get_monthly_budget_summary (o.finalState db) u month) }

/-! ## Lifecycle operations as a transition system -/

/-- One invocation of a lifecycle operation, with its arguments. -/
inductive LifecycleOp where
  | openOp (u : Nat) (month : String)
  | reopenOp (u : Nat) (month : String)
  | closeOp (u : Nat)
  | allocateOp (u : Nat) (month : String) (allocations : List (Nat × Int))
deriving Repr

/-- The store after running one operation to completion (successful or
failed); a failed call leaves the last state it committed, or the original
store when it raised before committing. -/
def applyOp (db : DB) : LifecycleOp → DB
  | .openOp u month => (open_new_month db u month).1
  | .reopenOp u month => (reopen_month db u month).1
  | .closeOp u => (close_active_month db u).1
  | .allocateOp u month allocations =>
    (create_or_update_monthly_budget db u month allocations).finalState db

/-- The store after a sequence of lifecycle operations. -/
def applyOps (ops : List LifecycleOp) (db : DB) : DB :=
  ops.foldl applyOp db

/-- A store holding categories, expenses and transactions but no budget
rows yet: the state before any lifecycle operation has run. -/
def initDB (cats : List Category) (exps : List Expense) (txns : List Transaction) : DB :=
  { categories := cats, expenses := exps, transactions := txns, budgets := [], nextBudgetId := 1 }

/-- The distinct months carrying `is_active = true` among `u`'s budget
rows. -/
def activeMonthsOf (db : DB) (u : Nat) : List String :=
  ((db.budgets.filter fun b => b.user_id == u && b.is_active).map CategoryBudget.month).dedup

/-- Any two active budget rows of one user carry the same month. -/
def pairwiseActiveRows (l : List CategoryBudget) : Prop :=
  ∀ b1 ∈ l, ∀ b2 ∈ l,
    b1.user_id = b2.user_id → b1.is_active = true → b2.is_active = true → b1.month = b2.month

/-- The inductive form of the single-active-month invariant on a store. -/
def pairwiseActive (db : DB) : Prop := pairwiseActiveRows db.budgets

/-! ## Concrete stores used as witnesses and counterexamples -/

/-- A store for a user owning no categories and holding no budget rows. -/
def dbNoCategories : DB := initDB [] [] []

/-- A store where user 1 owns one category and has no budget rows. -/
def dbOneCategory : DB := initDB [⟨1, 1, "food"⟩] [] []

/-- A store where user 1 owns category 2 and has one inactive allocation
row for `2024-03`: the shape on which the batch allocation's separate
delete-commit is observable. -/
def dbStaleMonth : DB :=
  { categories := [⟨2, 1, "rent"⟩], expenses := [], transactions := [],
    budgets := [⟨1, 1, 2, "2024-03", 4200, false⟩], nextBudgetId := 2 }

/-- A store where user 1's active month is `2024-03`. -/
def dbActiveMarch : DB :=
  { categories := [⟨1, 1, "food"⟩], expenses := [], transactions := [],
    budgets := [⟨1, 1, 1, "2024-03", 0, true⟩], nextBudgetId := 2 }

/-- A store where user 1 owns two categories and `2024-03` is active. -/
def dbTwoCatsActive : DB :=
  { categories := [⟨1, 1, "food"⟩, ⟨2, 1, "rent"⟩], expenses := [], transactions := [],
    budgets := [⟨1, 1, 1, "2024-03", 777, true⟩], nextBudgetId := 2 }

/-- A store with one closed (inactive) month and no active rows. -/
def dbClosedMonth : DB :=
  { categories := [⟨1, 1, "food"⟩], expenses := [], transactions := [],
    budgets := [⟨1, 1, 1, "2024-02", 100, false⟩], nextBudgetId := 2 }

/-- A store exercising the category dashboard: one category with one
expense, one March transaction and one March allocation row. -/
def dbDashboard : DB :=
  { categories := [⟨1, 1, "food"⟩], expenses := [⟨1, 1, 1, "groceries"⟩],
    transactions := [⟨1, 1, 1, 500, ⟨2024, 3, 5⟩⟩],
    budgets := [⟨1, 1, 1, "2024-03", 10000, true⟩], nextBudgetId := 2 }

/-- A store with a single December-2024 transaction. -/
def dbDecember : DB := initDB [] [] [⟨1, 1, 1, 500, ⟨2024, 12, 25⟩⟩]

/-! ## Basic lemmas about the active-month queries -/

theorem get_active_month_eq_none_iff {db : DB} {u : Nat} :
    get_active_month db u = none ↔ ∀ b ∈ db.budgets, b.user_id = u → b.is_active = false := by
  simp only [get_active_month, Option.map_eq_none', List.head?_eq_none_iff,
    List.filter_eq_nil_iff, Bool.and_eq_true, beq_iff_eq, not_and]
  constructor
  · intro h b hb hu
    have := h b hb
    by_contra hact
    exact (this hu) (by simpa using hact)
  · intro h b hb hu
    simp [h b hb hu]

theorem no_active_row_of_has_active_false {db : DB} {u : Nat}
    (h : has_active_month db u = false) :
    ∀ b ∈ db.budgets, b.user_id = u → b.is_active = false := by
  have : get_active_month db u = none := by
    simpa [has_active_month, Option.not_isSome, Option.isNone_iff_eq_none] using h
  exact get_active_month_eq_none_iff.1 this

theorem exists_row_of_get_active_month_eq_some {db : DB} {u : Nat} {a : String}
    (h : get_active_month db u = some a) :
    ∃ b ∈ db.budgets, b.user_id = u ∧ b.is_active = true ∧ b.month = a := by
  simp only [get_active_month, Option.map_eq_some'] at h
  rcases h with ⟨b, hb, hmonth⟩
  rcases List.head?_eq_some_iff.1 hb with ⟨ys, hys⟩
  have hmem : b ∈ db.budgets.filter fun x => x.user_id == u && x.is_active := by
    rw [hys]; exact List.mem_cons_self _ _
  rcases List.mem_filter.1 hmem with ⟨hmem', hp⟩
  simp only [Bool.and_eq_true, beq_iff_eq] at hp
  exact ⟨b, hmem', hp.1, hp.2, hmonth⟩

/-! ## C8: closing with no active month -/

/-- C8: when a user has no budget row carrying `is_active = true`,
`close_active_month` returns the failure result `false` and leaves the
store — in particular every `CategoryBudget` row — unchanged. -/
theorem close_active_month_no_active (db : DB) (u : Nat)
    (h : ∀ b ∈ db.budgets, b.user_id = u → b.is_active = false) :
    close_active_month db u = (db, false) := by
  unfold close_active_month
  rw [if_pos]
  simp only [List.isEmpty_iff, List.filter_eq_nil_iff, Bool.and_eq_true, beq_iff_eq, not_and]
  intro b hb hu
  simp [h b hb hu]

/-- C8 witness: a user with only an inactive row. -/
theorem close_active_month_no_active_witness :
    (∀ b ∈ dbClosedMonth.budgets, b.user_id = 1 → b.is_active = false) ∧
      close_active_month dbClosedMonth 1 = (dbClosedMonth, false) :=
  ⟨by decide, close_active_month_no_active dbClosedMonth 1 (by decide)⟩

/-! ## C4: batch allocation against the wrong month -/

/-- C4: when the user's active month `a` differs from the target `month`,
`create_or_update_monthly_budget` raises a conflict error naming `a`,
commits nothing, and the store after the failed call is unchanged. -/
theorem create_or_update_conflict (db : DB) (u : Nat) (month : String)
    (allocations : List (Nat × Int)) (a : String)
    (ha : get_active_month db u = some a) (hne : a ≠ month) :
    create_or_update_monthly_budget db u month allocations =
      { commits := [], result := .error (.activeConflict month a) } ∧
    (create_or_update_monthly_budget db u month allocations).finalState db = db := by
  have h : create_or_update_monthly_budget db u month allocations =
      { commits := [], result := .error (.activeConflict month a) } := by
    unfold create_or_update_monthly_budget
    rw [ha]
    simp [hne]
  exact ⟨h, by rw [h]; rfl⟩

/-- C4 witness: allocating to April while March is active. -/
theorem create_or_update_conflict_witness :
    get_active_month dbActiveMarch 1 = some "2024-03" ∧
    create_or_update_monthly_budget dbActiveMarch 1 "2024-04" [(1, 10000)] =
      { commits := [], result := .error (.activeConflict "2024-04" "2024-03") } ∧
    (create_or_update_monthly_budget dbActiveMarch 1 "2024-04" [(1, 10000)]).finalState
        dbActiveMarch = dbActiveMarch :=
  ⟨by decide,
   (create_or_update_conflict dbActiveMarch 1 "2024-04" [(1, 10000)] "2024-03"
     (by decide) (by decide)).1,
   (create_or_update_conflict dbActiveMarch 1 "2024-04" [(1, 10000)] "2024-03"
     (by decide) (by decide)).2⟩

/-! ## C3: opening a fresh month -/

/-- C3 (amended): with no active month and no rows for the target month,
`open_new_month` succeeds, appending exactly one budget row per category
the user owns — in category order, each with amount 0 and
`is_active = true` — and, provided the user owns at least one category,
the target month is the user's active month afterwards. -/
theorem open_new_month_success (db : DB) (u : Nat) (month : String)
    (hact : get_active_month db u = none)
    (hrows : get_category_budgets_by_month db u month = []) :
    ∃ rows,
      open_new_month db u month =
        ({ db with budgets := db.budgets ++ rows,
                   nextBudgetId := db.nextBudgetId + rows.length }, .ok true) ∧
      rows.map CategoryBudget.category_id =
        (db.categories.filter fun c => c.user_id == u).map Category.id ∧
      (∀ b ∈ rows, b.user_id = u ∧ b.month = month ∧ b.allocated_amount = 0 ∧
        b.is_active = true) ∧
      ((db.categories.filter fun c => c.user_id == u) ≠ [] →
        get_active_month (open_new_month db u month).1 u = some month) := by
  have h1 : has_active_month db u = false := by
    simp [has_active_month, hact]
  have heq : open_new_month db u month =
      ({ db with
          budgets := db.budgets ++
            ((db.categories.filter fun c => c.user_id == u).enum.map fun p =>
              ({ id := db.nextBudgetId + p.1, user_id := u, category_id := p.2.id,
                 month := month, allocated_amount := 0, is_active := true } : CategoryBudget)),
          nextBudgetId := db.nextBudgetId +
            ((db.categories.filter fun c => c.user_id == u).enum.map fun p =>
              ({ id := db.nextBudgetId + p.1, user_id := u, category_id := p.2.id,
                 month := month, allocated_amount := 0, is_active := true } : CategoryBudget)).length },
       .ok true) := by
    unfold open_new_month
    rw [h1, hrows]
    simp
  refine ⟨_, heq, ?_, ?_, ?_⟩
  · rw [List.map_map]
    have : (CategoryBudget.category_id ∘ fun p : Nat × Category =>
        ({ id := db.nextBudgetId + p.1, user_id := u, category_id := p.2.id,
           month := month, allocated_amount := 0, is_active := true } : CategoryBudget)) =
        Category.id ∘ Prod.snd := rfl
    rw [this, ← List.map_map, List.enum_map_snd]
  · intro b hb
    rcases List.mem_map.1 hb with ⟨p, _, rfl⟩
    exact ⟨rfl, rfl, rfl, rfl⟩
  · intro hne
    rw [heq]
    simp only [get_active_month, List.filter_append]
    have hold : db.budgets.filter (fun b => b.user_id == u && b.is_active) = [] := by
      rw [List.filter_eq_nil_iff]
      intro b hb
      have := get_active_month_eq_none_iff.1 hact b hb
      simp only [Bool.and_eq_true, beq_iff_eq, not_and]
      intro hu
      simp [this hu]
    rw [hold, List.nil_append]
    rcases hc : (db.categories.filter fun c => c.user_id == u) with _ | ⟨c0, cs⟩
    · exact absurd hc hne
    · rw [hc]
      simp [List.enum_cons, List.filter_cons]

/-- C3 counterexample: for a user owning no categories, `open_new_month`
succeeds but afterwards the target month is not the active month (there is
no active month at all), refuting the claim's final clause. -/
theorem open_new_month_zero_categories :
    get_active_month dbNoCategories 1 = none ∧
    get_category_budgets_by_month dbNoCategories 1 "2024-03" = [] ∧
    (open_new_month dbNoCategories 1 "2024-03").2 = .ok true ∧
    get_active_month (open_new_month dbNoCategories 1 "2024-03").1 1 ≠ some "2024-03" := by
  decide

/-- C3 witness: a user owning one category. -/
theorem open_new_month_success_witness :
    (get_active_month dbOneCategory 1 = none ∧
      get_category_budgets_by_month dbOneCategory 1 "2024-03" = []) ∧
    ∃ rows,
      open_new_month dbOneCategory 1 "2024-03" =
        ({ dbOneCategory with budgets := dbOneCategory.budgets ++ rows,
                              nextBudgetId := dbOneCategory.nextBudgetId + rows.length },
         .ok true) ∧
      rows.map CategoryBudget.category_id =
        (dbOneCategory.categories.filter fun c => c.user_id == 1).map Category.id ∧
      (∀ b ∈ rows, b.user_id = 1 ∧ b.month = "2024-03" ∧ b.allocated_amount = 0 ∧
        b.is_active = true) ∧
      ((dbOneCategory.categories.filter fun c => c.user_id == 1) ≠ [] →
        get_active_month (open_new_month dbOneCategory 1 "2024-03").1 1 = some "2024-03") :=
  ⟨⟨by decide, by decide⟩,
   open_new_month_success dbOneCategory 1 "2024-03" (by decide) (by decide)⟩

/-! ## C2: the batch allocation is not atomic -/

/-- C2: the batch allocation commits the deletion of the old rows as its
own transaction (inside `delete_category_budgets_by_month`) before the new
rows are inserted and committed: at the first committed — hence observable
and durable — state of the call, the pre-existing allocation row is gone
and no new row exists, contradicting the all-or-nothing requirement. -/
theorem create_or_update_commits_delete_separately :
    (create_or_update_monthly_budget dbStaleMonth 1 "2024-03" [(2, 5000)]).commits.length = 2 ∧
    ((create_or_update_monthly_budget dbStaleMonth 1 "2024-03" [(2, 5000)]).commits.head?.getD
        dbStaleMonth).budgets = [] ∧
    dbStaleMonth.budgets ≠ [] ∧
    (create_or_update_monthly_budget dbStaleMonth 1 "2024-03" [(2, 5000)]).result =
      .ok [⟨2, 1, 2, "2024-03", 5000, true⟩] := by
  decide

/-! ## Digit and split lemmas -/

theorem digitChar_ne_dash {n : Nat} (h : n ≤ 9) : digitChar n ≠ '-' := by
  interval_cases n <;> decide

theorem isDigitChar_digitChar {n : Nat} (h : n ≤ 9) : isDigitChar (digitChar n) = true := by
  interval_cases n <;> decide

theorem digitVal_digitChar {n : Nat} (h : n ≤ 9) : digitVal (digitChar n) = n := by
  interval_cases n <;> decide

theorem dash_not_mem_digits2 {m : Nat} (h : m ≤ 99) : '-' ∉ digits2 m := by
  have h1 : m / 10 ≤ 9 := by omega
  have h2 : m % 10 ≤ 9 := by omega
  simp only [digits2, List.mem_cons, List.not_mem_nil, or_false]
  push_neg
  exact ⟨fun e => digitChar_ne_dash h1 e.symm, fun e => digitChar_ne_dash h2 e.symm⟩

theorem dash_not_mem_digits4 {y : Nat} (h : y ≤ 9999) : '-' ∉ digits4 y := by
  have h1 : y / 1000 ≤ 9 := by omega
  have h2 : y / 100 % 10 ≤ 9 := by omega
  have h3 : y / 10 % 10 ≤ 9 := by omega
  have h4 : y % 10 ≤ 9 := by omega
  simp only [digits4, List.mem_cons, List.not_mem_nil, or_false]
  push_neg
  exact ⟨fun e => digitChar_ne_dash h1 e.symm, fun e => digitChar_ne_dash h2 e.symm,
    fun e => digitChar_ne_dash h3 e.symm, fun e => digitChar_ne_dash h4 e.symm⟩

theorem splitOnDash_no_dash {l : List Char} (h : '-' ∉ l) : splitOnDash l = [l] := by
  induction l with
  | nil => rfl
  | cons c rest ih =>
    have hc : c ≠ '-' := fun e => h (e ▸ List.mem_cons_self c rest)
    have hr : '-' ∉ rest := fun m => h (List.mem_cons_of_mem _ m)
    simp [splitOnDash, hc, ih hr]

theorem splitOnDash_append {l1 : List Char} (rest : List Char) (h : '-' ∉ l1) :
    splitOnDash (l1 ++ '-' :: rest) = l1 :: splitOnDash rest := by
  induction l1 with
  | nil => simp [splitOnDash]
  | cons c t ih =>
    have hc : c ≠ '-' := fun e => h (e ▸ List.mem_cons_self c t)
    have ht : '-' ∉ t := fun m => h (List.mem_cons_of_mem _ m)
    simp [splitOnDash, hc, ih ht]

/-! ## C9: the dashboard month display format -/

/-- C9 (amended): every well-formed `YYYY-MM` month is reformatted to
`MM/YY`; an input is returned unchanged exactly when splitting on `-` does
not yield two pieces (a malformed input containing exactly one dash is
still reformatted, as the counterexample shows). -/
theorem format_month_display_spec :
    (∀ y m : Nat, y ≤ 9999 → m ≤ 99 →
      formatMonthDisplay (mkMonthStr y m) = String.mk (digits2 m ++ '/' :: digits2 (y % 100))) ∧
    (∀ s : String, (splitOnDash s.data).length ≠ 2 → formatMonthDisplay s = s) := by
  constructor
  · intro y m hy hm
    have hsplit : splitOnDash (mkMonthStr y m).data = [digits4 y, digits2 m] := by
      show splitOnDash (digits4 y ++ '-' :: digits2 m) = _
      rw [splitOnDash_append _ (dash_not_mem_digits4 hy),
        splitOnDash_no_dash (dash_not_mem_digits2 hm)]
    have hdrop : (digits4 y).drop 2 = digits2 (y % 100) := by
      have e1 : y / 10 % 10 = y % 100 / 10 := by omega
      have e2 : y % 10 = y % 100 % 10 := by omega
      simp [digits4, digits2, e1, e2]
    rw [formatMonthDisplay, hsplit]
    show String.mk (digits2 m ++ '/' :: (digits4 y).drop 2) = _
    rw [hdrop]
  · intro s hlen
    rcases h : splitOnDash s.data with _ | ⟨a, _ | ⟨b, _ | _⟩⟩ <;>
      simp_all [formatMonthDisplay]

/-- C9 counterexample: the malformed input `"a-b"` still splits into two
pieces and is reformatted to `"b/"` instead of being returned unchanged. -/
theorem format_month_display_malformed :
    formatMonthDisplay "a-b" = "b/" ∧ formatMonthDisplay "a-b" ≠ "a-b" := by
  decide

/-- C9 witness: `2024-03` becomes `03/24`; a dash-free string is returned
unchanged. -/
theorem format_month_display_spec_witness :
    formatMonthDisplay (mkMonthStr 2024 3) = String.mk (digits2 3 ++ '/' :: digits2 (2024 % 100)) ∧
    formatMonthDisplay "202403" = "202403" :=
  ⟨format_month_display_spec.1 2024 3 (by decide) (by decide),
   format_month_display_spec.2 "202403" (by decide)⟩

/-! ## C10: the route ignores the payload month -/

/-- C10: the batch-allocation HTTP handler never reads the payload's
`month` field: its result is invariant under changing it, it rejects with
no committed write when the user has no active month, and otherwise its
writes are those of `create_or_update_monthly_budget` applied to the
*active* month. -/
theorem allocate_current_ignores_payload_month (db : DB) (u : Nat)
    (al : List (List (Nat × Int))) :
    (∀ m1 m2 : String,
      allocate_current_monthly_budget db u ⟨m1, al⟩ =
        allocate_current_monthly_budget db u ⟨m2, al⟩) ∧
    (get_active_month db u = none → ∀ pm : String,
      allocate_current_monthly_budget db u ⟨pm, al⟩ =
        { commits := [], response := .error .noActiveMonth }) ∧
    (∀ a : String, get_active_month db u = some a → ∀ pm : String,
      (allocate_current_monthly_budget db u ⟨pm, al⟩).commits =
        (create_or_update_monthly_budget db u a (flattenAllocations al)).commits) := by
  refine ⟨fun m1 m2 => rfl, ?_, ?_⟩
  · intro h pm
    unfold allocate_current_monthly_budget
    rw [h]
  · intro a h pm
    unfold allocate_current_monthly_budget
    rw [h]
    cases hres : (create_or_update_monthly_budget db u a (flattenAllocations al)).result <;>
      simp [hres]

/-- C10 witness: with March active the payload months `2099-07` and
`1111-11` produce identical outcomes targeting March; with no active month
the handler rejects without committing. -/
theorem allocate_current_ignores_payload_month_witness :
    (allocate_current_monthly_budget dbActiveMarch 1 ⟨"2099-07", [[(1, 10000)]]⟩ =
      allocate_current_monthly_budget dbActiveMarch 1 ⟨"1111-11", [[(1, 10000)]]⟩) ∧
    (allocate_current_monthly_budget dbNoCategories 1 ⟨"2099-07", [[(1, 10000)]]⟩ =
      { commits := [], response := .error .noActiveMonth }) ∧
    ((allocate_current_monthly_budget dbActiveMarch 1 ⟨"2099-07", [[(1, 10000)]]⟩).commits =
      (create_or_update_monthly_budget dbActiveMarch 1 "2024-03"
        (flattenAllocations [[(1, 10000)]])).commits) :=
  ⟨(allocate_current_ignores_payload_month dbActiveMarch 1 [[(1, 10000)]]).1 "2099-07" "1111-11",
   (allocate_current_ignores_payload_month dbNoCategories 1 [[(1, 10000)]]).2.1 (by decide) "2099-07",
   (allocate_current_ignores_payload_month dbActiveMarch 1 [[(1, 10000)]]).2.2 "2024-03"
     (by decide) "2099-07"⟩

/-! ## C5: allocate-then-summarize round trip -/

theorem newAllocationRows_map_amount (db : DB) (u : Nat) (month : String)
    (allocations : List (Nat × Int)) :
    (newAllocationRows db u month allocations).map CategoryBudget.allocated_amount =
      allocations.map Prod.snd := by
  unfold newAllocationRows
  rw [List.map_map]
  have : (CategoryBudget.allocated_amount ∘ fun p : Nat × (Nat × Int) =>
      ({ id := db.nextBudgetId + p.1, user_id := u, category_id := p.2.1, month := month,
         allocated_amount := p.2.2, is_active := true } : CategoryBudget)) =
      Prod.snd ∘ Prod.snd := rfl
  rw [this, ← List.map_map, List.enum_map_snd]

theorem filter_not_then_filter_eq_nil (l : List CategoryBudget) (p : CategoryBudget → Bool) :
    (l.filter fun b => !(p b)).filter p = [] := by
  rw [List.filter_filter, List.filter_eq_nil_iff]
  intro a _
  cases hpa : p a <;> simp [hpa]

/-- C5: after a successful batch allocation for `(u, month)`, the monthly
budget summary for the same month reports `total_allocated` equal to the
sum of the amounts passed in the allocation mapping. -/
theorem allocate_then_summary (db : DB) (u : Nat) (month : String)
    (allocations : List (Nat × Int))
    (hact : get_active_month db u = none ∨ get_active_month db u = some month)
    (hcats : (db.categories.filter fun c =>
        (allocations.map Prod.fst).contains c.id && c.user_id == u).length =
      (allocations.map Prod.fst).length) :
    ∃ rows, (create_or_update_monthly_budget db u month allocations).result = .ok rows ∧
      (get_monthly_budget_summary
        ((create_or_update_monthly_budget db u month allocations).finalState db)
        u month).total_allocated = (allocations.map Prod.snd).sum := by
  have hshape : create_or_update_monthly_budget db u month allocations =
      { commits := [(delete_category_budgets_by_month db u month).1,
          { (delete_category_budgets_by_month db u month).1 with
            budgets := (delete_category_budgets_by_month db u month).1.budgets ++
              newAllocationRows (delete_category_budgets_by_month db u month).1 u month allocations,
            nextBudgetId := (delete_category_budgets_by_month db u month).1.nextBudgetId +
              (newAllocationRows (delete_category_budgets_by_month db u month).1 u month
                allocations).length }],
        result := .ok (newAllocationRows (delete_category_budgets_by_month db u month).1 u month
          allocations) } := by
    have hcats' : (db.categories.filter fun c =>
        decide (c.id ∈ allocations.map Prod.fst) && c.user_id == u).length =
        allocations.length := by simpa using hcats
    rcases hact with h | h <;>
      · unfold create_or_update_monthly_budget
        rw [h]
        simp [hcats']
  refine ⟨_, by rw [hshape], ?_⟩
  rw [hshape]
  show (get_monthly_budget_summary _ u month).total_allocated = _
  unfold get_monthly_budget_summary get_category_budgets_by_month OpOutcome.finalState
  simp only [List.getLast?_cons_cons, List.getLast?_singleton, Option.getD_some,
    List.filter_append]
  rw [delete_category_budgets_by_month]
  rw [filter_not_then_filter_eq_nil, List.nil_append]
  rw [List.filter_eq_self.2 ?_, newAllocationRows_map_amount]
  intro b hb
  unfold newAllocationRows at hb
  rcases List.mem_map.1 hb with ⟨p, _, rfl⟩
  simp

/-- C5 witness: allocating 10000 and 5000 cents to two categories of the
active month sums to 15000 in the summary. -/
theorem allocate_then_summary_witness :
    (get_active_month dbTwoCatsActive 1 = none ∨
      get_active_month dbTwoCatsActive 1 = some "2024-03") ∧
    ∃ rows,
      (create_or_update_monthly_budget dbTwoCatsActive 1 "2024-03"
        [(1, 10000), (2, 5000)]).result = .ok rows ∧
      (get_monthly_budget_summary
        ((create_or_update_monthly_budget dbTwoCatsActive 1 "2024-03"
          [(1, 10000), (2, 5000)]).finalState dbTwoCatsActive)
        1 "2024-03").total_allocated = ([(1, 10000), (2, 5000)].map Prod.snd).sum :=
  ⟨Or.inr (by decide),
   allocate_then_summary dbTwoCatsActive 1 "2024-03" [(1, 10000), (2, 5000)]
     (Or.inr (by decide)) (by decide)⟩

/-! ## C6: the per-category dashboard -/

theorem sumAgg_getD_zero (l : List Int) : (sumAgg l).getD 0 = l.sum := by
  cases l <;> rfl

theorem filter_expense_map_const (exps : List Expense)
    (hids : (exps.map Expense.id).Nodup) (tid : Nat) (pe : Expense → Bool) (a : Int) :
    ((exps.filter fun e => tid == e.id && pe e).map fun _ => a) =
      if exps.any (fun e => tid == e.id && pe e) then [a] else [] := by
  rcases hf : exps.filter (fun e => tid == e.id && pe e) with _ | ⟨e0, rest⟩
  · rw [hf, if_neg]
    · rfl
    · intro hany
      rcases List.any_eq_true.1 hany with ⟨e, he, hpe⟩
      have : e ∈ exps.filter (fun e => tid == e.id && pe e) := List.mem_filter.2 ⟨he, hpe⟩
      rw [hf] at this
      exact absurd this (List.not_mem_nil e)
  · have he0 : e0 ∈ exps ∧ (tid == e0.id && pe e0) = true := by
      have : e0 ∈ exps.filter (fun e => tid == e.id && pe e) := by
        rw [hf]; exact List.mem_cons_self _ _
      exact List.mem_filter.1 this
    have hrest : rest = [] := by
      rcases rest with _ | ⟨e1, rest'⟩
      · rfl
      · exfalso
        have hnd : (exps.filter fun e => tid == e.id && pe e).Nodup :=
          (hids.of_map).filter _
        rw [hf] at hnd
        have he1 : e1 ∈ exps ∧ (tid == e1.id && pe e1) = true := by
          have : e1 ∈ exps.filter (fun e => tid == e.id && pe e) := by
            rw [hf]; exact List.mem_cons_of_mem _ (List.mem_cons_self _ _)
          exact List.mem_filter.1 this
        have hid : e0.id = e1.id := by
          have h0 : (tid == e0.id) = true := by
            have := he0.2; rw [Bool.and_eq_true] at this; exact this.1
          have h1 : (tid == e1.id) = true := by
            have := he1.2; rw [Bool.and_eq_true] at this; exact this.1
          have := (beq_iff_eq.1 h0).symm.trans (beq_iff_eq.1 h1)
          exact this
        have : e0 = e1 := List.inj_on_of_nodup_map hids he0.1 he1.1 hid
        rw [List.nodup_cons] at hnd
        exact hnd.1 (this ▸ List.mem_cons_self e1 rest')
    rw [hf, hrest, if_pos]
    · rfl
    · exact List.any_eq_true.2 ⟨e0, he0.1, he0.2⟩

theorem joinAmounts_eq_filter_map (ts : List Transaction) (exps : List Expense)
    (hids : (exps.map Expense.id).Nodup) (pe : Expense → Bool) (pt : Transaction → Bool) :
    (ts.flatMap fun t =>
      if pt t then (exps.filter fun e => t.expense_id == e.id && pe e).map fun _ => t.amount
      else []) =
    (ts.filter fun t => pt t && (exps.any fun e => t.expense_id == e.id && pe e)).map
      Transaction.amount := by
  induction ts with
  | nil => rfl
  | cons t ts ih =>
    rw [List.flatMap_cons, List.filter_cons, ih]
    rcases hpt : pt t with _ | _
    · simp [hpt]
    · rw [if_pos rfl, filter_expense_map_const exps hids t.expense_id pe t.amount]
      rcases hany : exps.any fun e => t.expense_id == e.id && pe e with _ | _
      · simp [hpt, hany]
      · simp [hpt, hany]

/-- C6: for every category the user owns, the dashboard contains a row
reporting `totalSpent` as the plain sum — `0`, never null, when nothing
matches — of the amounts of the user's transactions joined through
`Expense` to that category and dated in the month, and `budget` as the
allocation row's amount when one exists for that category and month and
null otherwise.  Expense ids are assumed distinct (primary keys) and
allocation rows unique per `(user, category, month)` (the spec's row
invariant). -/
theorem categories_dashboard_spec (db : DB) (u : Nat) (month : String)
    (hexp : (db.expenses.map Expense.id).Nodup)
    (huniq : ∀ b1 ∈ db.budgets, ∀ b2 ∈ db.budgets, b1.user_id = u → b2.user_id = u →
      b1.category_id = b2.category_id → b1.month = month → b2.month = month → b1 = b2) :
    ∀ c ∈ db.categories, c.user_id = u →
      ∃ r ∈ get_categories_dashboard db u month,
        r.id = c.id ∧ r.name = c.name ∧
        r.totalSpent = ((db.transactions.filter fun t =>
            (toCharYYYYMM t.transaction_date == month) &&
            (db.expenses.any fun e => t.expense_id == e.id &&
              (e.category_id == c.id && e.user_id == u))).map Transaction.amount).sum ∧
        ((∀ b ∈ db.budgets, ¬(b.user_id = u ∧ b.category_id = c.id ∧ b.month = month)) →
          r.budget = none) ∧
        (∀ b ∈ db.budgets, b.user_id = u → b.category_id = c.id → b.month = month →
          r.budget = some b.allocated_amount) := by
  intro c hc hcu
  refine ⟨_, List.mem_map_of_mem _ (List.mem_filter.2 ⟨hc, by simp [hcu]⟩), rfl, rfl, ?_, ?_, ?_⟩
  · rw [sumAgg_getD_zero]
    unfold joinAmounts
    rw [joinAmounts_eq_filter_map db.transactions db.expenses hexp _ _]
  · intro hnone
    have : db.budgets.filter (fun b =>
        b.user_id == u && b.category_id == c.id && b.month == month) = [] := by
      rw [List.filter_eq_nil_iff]
      intro b hb
      have := hnone b hb
      simp only [Bool.and_eq_true, beq_iff_eq, not_and]
      intro h1 h2
      exact this ⟨h1.1, h1.2, h2⟩
    simp [this]
  · intro b hb h1 h2 h3
    have hbf : b ∈ db.budgets.filter (fun b =>
        b.user_id == u && b.category_id == c.id && b.month == month) :=
      List.mem_filter.2 ⟨hb, by simp [h1, h2, h3]⟩
    rcases hf : db.budgets.filter (fun b =>
        b.user_id == u && b.category_id == c.id && b.month == month) with _ | ⟨b0, rest⟩
    · rw [hf] at hbf; exact absurd hbf (List.not_mem_nil b)
    · have hb0 : b0 ∈ db.budgets ∧
          (b0.user_id == u && b0.category_id == c.id && b0.month == month) = true := by
        have : b0 ∈ db.budgets.filter (fun b =>
            b.user_id == u && b.category_id == c.id && b.month == month) := by
          rw [hf]; exact List.mem_cons_self _ _
        exact List.mem_filter.1 this
      have hb0p : b0.user_id = u ∧ b0.category_id = c.id ∧ b0.month = month := by
        have := hb0.2
        simp only [Bool.and_eq_true, beq_iff_eq] at this
        exact ⟨this.1.1, this.1.2, this.2⟩
      have : b0 = b :=
        huniq b0 hb0.1 b hb hb0p.1 h1 (hb0p.2.1.trans h2.symm) hb0p.2.2 h3
      simp [hf, this]

/-- C6 witness: one category with one March transaction of 500 cents and a
10000-cent allocation row. -/
theorem categories_dashboard_spec_witness :
    ∃ r ∈ get_categories_dashboard dbDashboard 1 "2024-03",
      r.id = 1 ∧ r.name = "food" ∧
      r.totalSpent = ((dbDashboard.transactions.filter fun t =>
          (toCharYYYYMM t.transaction_date == "2024-03") &&
          (dbDashboard.expenses.any fun e => t.expense_id == e.id &&
            (e.category_id == 1 && e.user_id == 1))).map Transaction.amount).sum ∧
      ((∀ b ∈ dbDashboard.budgets, ¬(b.user_id = 1 ∧ b.category_id = 1 ∧ b.month = "2024-03")) →
        r.budget = none) ∧
      (∀ b ∈ dbDashboard.budgets, b.user_id = 1 → b.category_id = 1 → b.month = "2024-03" →
        r.budget = some b.allocated_amount) :=
  categories_dashboard_spec dbDashboard 1 "2024-03" (by decide) (by decide)
    ⟨1, 1, "food"⟩ (by decide) (by decide)

/-! ## C1: the single-active-month invariant -/

theorem nodup_all_eq_length_le_one {l : List String} (hnd : l.Nodup)
    (h : ∀ a ∈ l, ∀ b ∈ l, a = b) : l.length ≤ 1 := by
  rcases l with _ | ⟨a, _ | ⟨b, t⟩⟩
  · simp
  · simp
  · exfalso
    have hab : a = b := h a (by simp) b (by simp)
    rw [List.nodup_cons] at hnd
    exact hnd.1 (hab ▸ List.mem_cons_self b t)

theorem activeMonthsOf_length_le_one {db : DB} (h : pairwiseActive db) (u : Nat) :
    (activeMonthsOf db u).length ≤ 1 := by
  apply nodup_all_eq_length_le_one (List.nodup_dedup _)
  intro a ha b hb
  rw [List.mem_dedup] at ha hb
  rcases List.mem_map.1 ha with ⟨b1, hb1, rfl⟩
  rcases List.mem_map.1 hb with ⟨b2, hb2, rfl⟩
  rcases List.mem_filter.1 hb1 with ⟨m1, p1⟩
  rcases List.mem_filter.1 hb2 with ⟨m2, p2⟩
  simp only [Bool.and_eq_true, beq_iff_eq] at p1 p2
  exact h b1 m1 b2 m2 (p1.1.trans p2.1.symm) p1.2 p2.2

theorem pairwiseActiveRows_kept_append (old : List CategoryBudget) (u : Nat) (m : String)
    (rows : List CategoryBudget)
    (h : pairwiseActiveRows old)
    (hrows : ∀ b ∈ rows, b.user_id = u ∧ b.month = m ∧ b.is_active = true)
    (hold : ∀ b ∈ old, b.user_id = u → b.is_active = true → b.month = m) :
    pairwiseActiveRows ((old.filter fun b => !(b.user_id == u && b.month == m)) ++ rows) := by
  have hkept : ∀ b ∈ old.filter fun x => !(x.user_id == u && x.month == m),
      b.user_id = u → b.is_active = true → False := by
    intro b hb hu hact
    rcases List.mem_filter.1 hb with ⟨hmem, hp⟩
    have hbm : b.month = m := hold b hmem hu hact
    simp [hu, hbm] at hp
  intro b1 hb1 b2 hb2 hu h1 h2
  rcases List.mem_append.1 hb1 with hb1o | hb1n <;> rcases List.mem_append.1 hb2 with hb2o | hb2n
  · exact h b1 (List.mem_filter.1 hb1o).1 b2 (List.mem_filter.1 hb2o).1 hu h1 h2
  · rcases hrows b2 hb2n with ⟨hu2, _, _⟩
    exact absurd h1 (fun h1 => hkept b1 hb1o (hu.trans hu2) h1)
  · rcases hrows b1 hb1n with ⟨hu1, _, _⟩
    exact absurd h2 (fun h2 => hkept b2 hb2o (hu.symm.trans hu1) h2)
  · exact (hrows b1 hb1n).2.1.trans (hrows b2 hb2n).2.1.symm

theorem pairwiseActive_open (db : DB) (u : Nat) (m : String) (h : pairwiseActive db) :
    pairwiseActive (open_new_month db u m).1 := by
  unfold open_new_month
  by_cases hact : has_active_month db u = true
  · simp only [hact, if_true]
    exact h
  · have hactf : has_active_month db u = false := by simpa using hact
    have hnoact := no_active_row_of_has_active_false hactf
    by_cases hrows : (get_category_budgets_by_month db u m).isEmpty = true
    · simp only [hactf, Bool.false_eq_true, if_false, hrows, not_true, if_neg, if_true]
      intro b1 hb1 b2 hb2 hu h1 h2
      rcases List.mem_append.1 hb1 with hb1o | hb1n <;>
        rcases List.mem_append.1 hb2 with hb2o | hb2n
      · exact h b1 hb1o b2 hb2o hu h1 h2
      · rcases List.mem_map.1 hb2n with ⟨p, _, rfl⟩
        exact absurd (hnoact b1 hb1o (by simpa using hu)) (by simp [h1])
      · rcases List.mem_map.1 hb1n with ⟨p, _, rfl⟩
        exact absurd (hnoact b2 hb2o (by simpa using hu.symm)) (by simp [h2])
      · rcases List.mem_map.1 hb1n with ⟨p, _, rfl⟩
        rcases List.mem_map.1 hb2n with ⟨q, _, rfl⟩
        rfl
    · simp only [hactf, Bool.false_eq_true, if_false, hrows, not_false_iff, if_pos]
      exact h

theorem pairwiseActive_reopen (db : DB) (u : Nat) (m : String) (h : pairwiseActive db) :
    pairwiseActive (reopen_month db u m).1 := by
  unfold reopen_month
  by_cases hact : has_active_month db u = true
  · simp only [hact, if_true]
    exact h
  · have hactf : has_active_month db u = false := by simpa using hact
    have hnoact := no_active_row_of_has_active_false hactf
    by_cases hrows : (get_category_budgets_by_month db u m).isEmpty = true
    · simp only [hactf, Bool.false_eq_true, if_false, hrows, if_true]
      exact h
    · simp only [hactf, Bool.false_eq_true, if_false, hrows, if_false]
      intro b1' hb1 b2' hb2 hu h1 h2
      rcases List.mem_map.1 hb1 with ⟨b1, hb1m, rfl⟩
      rcases List.mem_map.1 hb2 with ⟨b2, hb2m, rfl⟩
      by_cases p1 : (b1.user_id == u && b1.month == m) = true <;>
        by_cases p2 : (b2.user_id == u && b2.month == m) = true
      · rw [if_pos p1, if_pos p2]
        show b1.month = b2.month
        simp only [Bool.and_eq_true, beq_iff_eq] at p1 p2
        rw [p1.2, p2.2]
      · rw [if_pos p1, if_neg p2] at hu
        rw [if_neg p2] at h2
        simp only [Bool.and_eq_true, beq_iff_eq] at p1
        have hu2 : b2.user_id = u := by
          have h' : b1.user_id = b2.user_id := hu
          rw [← h', p1.1]
        exact absurd h2 (by simp [hnoact b2 hb2m hu2])
      · rw [if_neg p1, if_pos p2] at hu
        rw [if_neg p1] at h1
        simp only [Bool.and_eq_true, beq_iff_eq] at p2
        have hu1 : b1.user_id = u := by
          have h' : b1.user_id = b2.user_id := hu
          rw [h', p2.1]
        exact absurd h1 (by simp [hnoact b1 hb1m hu1])
      · rw [if_neg p1] at hu h1 ⊢
        rw [if_neg p2] at hu h2 ⊢
        exact h b1 hb1m b2 hb2m hu h1 h2

theorem pairwiseActive_close (db : DB) (u : Nat) (h : pairwiseActive db) :
    pairwiseActive (close_active_month db u).1 := by
  unfold close_active_month
  by_cases hemp : (db.budgets.filter fun b => b.user_id == u && b.is_active).isEmpty = true
  · simp only [hemp, if_true]
    exact h
  · simp only [hemp, Bool.false_eq_true, if_false]
    intro b1' hb1 b2' hb2 hu h1 h2
    rcases List.mem_map.1 hb1 with ⟨b1, hb1m, rfl⟩
    rcases List.mem_map.1 hb2 with ⟨b2, hb2m, rfl⟩
    by_cases p1 : (b1.user_id == u && b1.is_active) = true <;>
      by_cases p2 : (b2.user_id == u && b2.is_active) = true
    · rw [if_pos p1] at h1
      exact absurd h1 (by simp)
    · rw [if_pos p1] at h1
      exact absurd h1 (by simp)
    · rw [if_pos p2] at h2
      exact absurd h2 (by simp)
    · rw [if_neg p1] at hu h1 ⊢
      rw [if_neg p2] at hu h2 ⊢
      exact h b1 hb1m b2 hb2m hu h1 h2

theorem mem_newAllocationRows (db : DB) (u : Nat) (m : String)
    (al : List (Nat × Int)) (b : CategoryBudget) (hb : b ∈ newAllocationRows db u m al) :
    b.user_id = u ∧ b.month = m ∧ b.is_active = true := by
  unfold newAllocationRows at hb
  rcases List.mem_map.1 hb with ⟨p, _, rfl⟩
  exact ⟨rfl, rfl, rfl⟩

theorem pairwiseActive_allocate (db : DB) (u : Nat) (m : String)
    (al : List (Nat × Int)) (h : pairwiseActive db) :
    pairwiseActive ((create_or_update_monthly_budget db u m al).finalState db) := by
  have hmain : ∀ hold : (∀ b ∈ db.budgets, b.user_id = u → b.is_active = true → b.month = m),
      pairwiseActive
        ({ (delete_category_budgets_by_month db u m).1 with
            budgets := (delete_category_budgets_by_month db u m).1.budgets ++
              newAllocationRows (delete_category_budgets_by_month db u m).1 u m al,
            nextBudgetId := (delete_category_budgets_by_month db u m).1.nextBudgetId +
              (newAllocationRows (delete_category_budgets_by_month db u m).1 u m al).length }) := by
    intro hold
    exact pairwiseActiveRows_kept_append db.budgets u m
      (newAllocationRows (delete_category_budgets_by_month db u m).1 u m al) h
      (fun b hb => mem_newAllocationRows _ u m al b hb) hold
  rcases hga : get_active_month db u with _ | a
  · simp only [create_or_update_monthly_budget, hga]
    by_cases hlen : ((db.categories.filter fun c =>
        (al.map Prod.fst).contains c.id && c.user_id == u).length ≠ (al.map Prod.fst).length)
    · rw [if_pos hlen]
      exact h
    · rw [if_neg hlen]
      apply hmain
      intro b hb hu hact
      exact absurd hact (by simp [get_active_month_eq_none_iff.1 hga b hb hu])
  · simp only [create_or_update_monthly_budget, hga]
    by_cases hne : a ≠ m
    · rw [if_pos hne]
      exact h
    · rw [if_neg hne]
      push_neg at hne
      by_cases hlen : ((db.categories.filter fun c =>
          (al.map Prod.fst).contains c.id && c.user_id == u).length ≠ (al.map Prod.fst).length)
      · rw [if_pos hlen]
        exact h
      · rw [if_neg hlen]
        apply hmain
        intro b hb hu hact
        rcases exists_row_of_get_active_month_eq_some hga with ⟨b0, hb0, hu0, hact0, hm0⟩
        exact ((h b hb b0 hb0 (hu.trans hu0.symm) hact hact0).trans hm0).trans hne

theorem pairwiseActive_applyOp (db : DB) (op : LifecycleOp) (h : pairwiseActive db) :
    pairwiseActive (applyOp db op) := by
  cases op with
  | openOp u m => exact pairwiseActive_open db u m h
  | reopenOp u m => exact pairwiseActive_reopen db u m h
  | closeOp u => exact pairwiseActive_close db u h
  | allocateOp u m al => exact pairwiseActive_allocate db u m al h

theorem pairwiseActive_applyOps (ops : List LifecycleOp) (db : DB) (h : pairwiseActive db) :
    pairwiseActive (applyOps ops db) := by
  induction ops generalizing db with
  | nil => exact h
  | cons op rest ih => exact ih _ (pairwiseActive_applyOp db op h)

/-- C1: starting from a store with no budget rows, after any sequence of
`open_new_month`, `reopen_month`, `close_active_month` and
`create_or_update_monthly_budget` calls, every user's set of distinct
months carrying `is_active = true` has cardinality 0 or 1. -/
theorem single_active_month_invariant (cats : List Category) (exps : List Expense)
    (txns : List Transaction) (ops : List LifecycleOp) (u : Nat) :
    (activeMonthsOf (applyOps ops (initDB cats exps txns)) u).length = 0 ∨
    (activeMonthsOf (applyOps ops (initDB cats exps txns)) u).length = 1 := by
  have h0 : pairwiseActive (initDB cats exps txns) := by
    intro b1 hb1
    exact absurd hb1 (List.not_mem_nil _)
  have hle := activeMonthsOf_length_le_one (pairwiseActive_applyOps ops _ h0) u
  omega

/-! ## C7: month boundaries of the transaction summary -/

theorem digitChar_beq_two {a : Nat} (h : a ≤ 9) : (digitChar a == '2') = (a == 2) := by
  interval_cases a <;> decide

theorem digitChar_beq_one {a : Nat} (h : a ≤ 9) : (digitChar a == '1') = (a == 1) := by
  interval_cases a <;> decide

theorem strptimeYMD_digits (s : String) (y mo d : Nat)
    (hdata : s.data = digits4 y ++ '-' :: digits2 mo ++ '-' :: digits2 d)
    (hy1 : 1 ≤ y) (hy : y ≤ 9999) (hm1 : 1 ≤ mo) (hm : mo ≤ 12)
    (hd1 : 1 ≤ d) (hd : d ≤ 31) :
    strptimeYMD s = some ⟨y, mo, d⟩ := by
  have b1 : y / 1000 ≤ 9 := by omega
  have b2 : y / 100 % 10 ≤ 9 := by omega
  have b3 : y / 10 % 10 ≤ 9 := by omega
  have b4 : y % 10 ≤ 9 := by omega
  have b5 : mo / 10 ≤ 9 := by omega
  have b6 : mo % 10 ≤ 9 := by omega
  have b7 : d / 10 ≤ 9 := by omega
  have b8 : d % 10 ≤ 9 := by omega
  unfold strptimeYMD
  rw [hdata]
  simp only [digits4, digits2, List.cons_append, List.nil_append]
  rw [digitVal_digitChar b1, digitVal_digitChar b2, digitVal_digitChar b3,
    digitVal_digitChar b4, digitVal_digitChar b5, digitVal_digitChar b6,
    digitVal_digitChar b7, digitVal_digitChar b8]
  have hY : ((y / 1000 * 10 + y / 100 % 10) * 10 + y / 10 % 10) * 10 + y % 10 = y := by omega
  have hMO : mo / 10 * 10 + mo % 10 = mo := by omega
  have hD : d / 10 * 10 + d % 10 = d := by omega
  rw [hY, hMO, hD]
  rw [if_pos]
  on_goal 2 =>
    simp only [isDigitChar_digitChar b1, isDigitChar_digitChar b2, isDigitChar_digitChar b3,
      isDigitChar_digitChar b4, isDigitChar_digitChar b5, isDigitChar_digitChar b6,
      isDigitChar_digitChar b7, isDigitChar_digitChar b8]
    simp
  rw [if_pos ⟨hy1, hm1, hm, hd1, hd⟩]

theorem charsToNat?_digits4 {y : Nat} (h : y ≤ 9999) : charsToNat? (digits4 y) = some y := by
  have b1 : y / 1000 ≤ 9 := by omega
  have b2 : y / 100 % 10 ≤ 9 := by omega
  have b3 : y / 10 % 10 ≤ 9 := by omega
  have b4 : y % 10 ≤ 9 := by omega
  unfold charsToNat?
  rw [if_pos]
  · simp only [digits4, List.foldl_cons, List.foldl_nil]
    rw [digitVal_digitChar b1, digitVal_digitChar b2, digitVal_digitChar b3,
      digitVal_digitChar b4]
    congr 1
    omega
  · refine ⟨by simp [digits4], ?_⟩
    simp [digits4, isDigitChar_digitChar b1, isDigitChar_digitChar b2,
      isDigitChar_digitChar b3, isDigitChar_digitChar b4]

theorem charsToNat?_digits2 {m : Nat} (h : m ≤ 99) : charsToNat? (digits2 m) = some m := by
  have b1 : m / 10 ≤ 9 := by omega
  have b2 : m % 10 ≤ 9 := by omega
  unfold charsToNat?
  rw [if_pos]
  · simp only [digits2, List.foldl_cons, List.foldl_nil]
    rw [digitVal_digitChar b1, digitVal_digitChar b2]
    congr 1
    omega
  · refine ⟨by simp [digits2], ?_⟩
    simp [digits2, isDigitChar_digitChar b1, isDigitChar_digitChar b2]

theorem endsWithDash12_mkMonthStr {y m : Nat} (hm : m ≤ 99) :
    endsWithDash12 (mkMonthStr y m) = (m == 12) := by
  have b5 : m / 10 ≤ 9 := by omega
  have b6 : m % 10 ≤ 9 := by omega
  unfold endsWithDash12 mkMonthStr
  simp only [digits4, digits2, List.cons_append, List.nil_append, List.reverse_cons,
    List.append_assoc, List.nil_append, List.append_nil]
  simp only [List.reverse_nil, List.nil_append, List.cons_append]
  rw [digitChar_beq_two b6, digitChar_beq_one b5]
  by_cases h12 : m = 12
  · subst h12
    decide
  · have e1 : (m == 12) = false := by simp [h12]
    rw [e1]
    have : ¬(m % 10 = 2 ∧ m / 10 = 1) := by omega
    rcases hA : (m % 10 == 2) with _ | _
    · simp
    · have hA' : m % 10 = 2 := by simpa using hA
      have hB : (m / 10 == 1) = false := by
        have : m / 10 ≠ 1 := fun hB' => this ⟨hA', hB'⟩
        simp [this]
      simp [hB]

theorem natChars_four {n : Nat} (h1 : 1000 ≤ n) (h2 : n ≤ 9999) :
    natChars n = digits4 n := by
  unfold natChars
  rw [if_neg (by omega), if_neg (by omega), if_neg (by omega), if_pos (by omega)]

theorem monthDateRange_mkMonthStr (y m : Nat) (hy1 : 1 ≤ y) (hy : y ≤ 9999)
    (hm1 : 1 ≤ m) (hm : m ≤ 12) (hdec : m = 12 → 999 ≤ y ∧ y ≤ 9998) :
    monthDateRange (mkMonthStr y m) =
      some (⟨y, m, 1⟩, if m = 12 then ⟨y + 1, 1, 1⟩ else ⟨y, m + 1, 1⟩) := by
  have hd2 : ('-' :: digits2 1 : List Char) = ['-', '0', '1'] := by decide
  have hdata1 : (mkMonthStr y m ++ "-01").data =
      digits4 y ++ '-' :: digits2 m ++ '-' :: digits2 1 := by
    rw [hd2]
    show (digits4 y ++ '-' :: digits2 m) ++ ['-', '0', '1'] = _
    simp [List.append_assoc]
  have hstart := strptimeYMD_digits _ y m 1 hdata1 hy1 hy hm1 hm (by omega) (by omega)
  have htake : (mkMonthStr y m).data.take 4 = digits4 y := by
    show List.take 4 (digits4 y ++ '-' :: digits2 m) = digits4 y
    exact List.take_left' (by simp [digits4])
  by_cases h12 : m = 12
  · subst h12
    have hrange := hdec rfl
    have hnat : natChars (y + 1) = digits4 (y + 1) := natChars_four (by omega) (by omega)
    have hdataE : (String.mk (natChars (y + 1) ++
        ('-' :: '0' :: '1' :: '-' :: '0' :: '1' :: []))).data =
        digits4 (y + 1) ++ '-' :: digits2 1 ++ '-' :: digits2 1 := by
      show natChars (y + 1) ++ ('-' :: '0' :: '1' :: '-' :: '0' :: '1' :: []) = _
      rw [hnat]
      have : ('-' :: (digits2 1 ++ '-' :: digits2 1) : List Char) =
          ('-' :: '0' :: '1' :: '-' :: '0' :: '1' :: []) := by decide
      rw [← this]
      simp [List.cons_append, List.append_assoc]
    have hend := strptimeYMD_digits
      (String.mk (natChars (y + 1) ++ ('-' :: '0' :: '1' :: '-' :: '0' :: '1' :: [])))
      (y + 1) 1 1 hdataE (by omega) (by omega) (by omega) (by omega) (by omega) (by omega)
    simp only [monthDateRange, hstart, endsWithDash12_mkMonthStr (show 12 ≤ 99 by omega),
      htake, charsToNat?_digits4 hy, hend]
    simp
  · have hm11 : m ≤ 11 := by omega
    have hlen : (mkMonthStr y m).data = (digits4 y ++ ['-']) ++ digits2 m := by
      show digits4 y ++ '-' :: digits2 m = _
      simp
    have hdrop : (mkMonthStr y m).data.drop ((mkMonthStr y m).data.length - 2) =
        digits2 m := by
      rw [hlen]
      have hl : ((digits4 y ++ ['-']) ++ digits2 m).length - 2 = (digits4 y ++ ['-']).length := by
        simp [digits4, digits2]
      rw [hl]
      exact List.drop_left _ _
    have hpad : pad2 (m + 1) = digits2 (m + 1) := by
      unfold pad2
      rw [if_pos (by omega)]
    have hdataE : (String.mk ((mkMonthStr y m).data.take 4 ++ '-' :: pad2 (m + 1) ++
        ('-' :: '0' :: '1' :: []))).data =
        digits4 y ++ '-' :: digits2 (m + 1) ++ '-' :: digits2 1 := by
      show (mkMonthStr y m).data.take 4 ++ '-' :: (pad2 (m + 1) ++ ('-' :: '0' :: '1' :: [])) = _
      rw [htake, hpad, hd2]
      simp [List.cons_append, List.append_assoc]
    have hend := strptimeYMD_digits
      (String.mk ((mkMonthStr y m).data.take 4 ++ '-' :: pad2 (m + 1) ++
        ('-' :: '0' :: '1' :: [])))
      y (m + 1) 1 hdataE hy1 hy (by omega) (by omega) (by omega) (by omega)
    have hbeq : (m == 12) = false := by simp [h12]
    simp only [monthDateRange, hstart, endsWithDash12_mkMonthStr (show m ≤ 99 by omega),
      hbeq, hdrop, charsToNat?_digits2 (show m ≤ 99 by omega), hend]
    simp [h12]

/-- C7 (amended): for a well-formed `YYYY-MM` month, the transaction
summary filters by the half-open range from the first day of the month to
the first day of the next month, and for December the upper bound is
January 1 of the following year — provided that for December the year lies
in 0999–9998, since rendering `YYYY+1` unpadded makes `strptime` fail
(`ValueError`) when `YYYY+1` is not four digits long. -/
theorem monthly_summary_half_open_range (db : DB) (u : Nat) (y m : Nat)
    (hy1 : 1 ≤ y) (hy : y ≤ 9999) (hm1 : 1 ≤ m) (hm : m ≤ 12)
    (hdec : m = 12 → 999 ≤ y ∧ y ≤ 9998) :
    monthDateRange (mkMonthStr y m) =
      some (⟨y, m, 1⟩, if m = 12 then ⟨y + 1, 1, 1⟩ else ⟨y, m + 1, 1⟩) ∧
    (get_monthly_summary db u (mkMonthStr y m)).map MonthlySummary.total_spending =
      some (((db.transactions.filter fun t => t.user_id == u &&
          dateLE ⟨y, m, 1⟩ t.transaction_date &&
          dateLT t.transaction_date
            (if m = 12 then ⟨y + 1, 1, 1⟩ else ⟨y, m + 1, 1⟩)).map
        Transaction.amount).sum) := by
  have hr := monthDateRange_mkMonthStr y m hy1 hy hm1 hm hdec
  refine ⟨hr, ?_⟩
  unfold get_monthly_summary
  rw [hr]
  simp only [sumAgg_getD_zero]
  rfl

/-- C7 counterexample: `"9999-12"` is in `YYYY-MM` form, but the code
renders the next year as the five-digit `"10000"`, `strptime` rejects it,
and the summary raises instead of using the range up to `10000-01-01`. -/
theorem monthly_summary_9999_december :
    mkMonthStr 9999 12 = "9999-12" ∧
    monthDateRange "9999-12" = none ∧
    get_monthly_summary dbDecember 1 "9999-12" = none := by
  decide

/-- C7 witness: `"2024-12"` yields the range
`["2024-12-01", "2025-01-01")`. -/
theorem monthly_summary_half_open_range_witness :
    monthDateRange (mkMonthStr 2024 12) =
      some (⟨2024, 12, 1⟩, if 12 = 12 then ⟨2024 + 1, 1, 1⟩ else ⟨2024, 12 + 1, 1⟩) ∧
    (get_monthly_summary dbDecember 1 (mkMonthStr 2024 12)).map MonthlySummary.total_spending =
      some (((dbDecember.transactions.filter fun t => t.user_id == 1 &&
          dateLE ⟨2024, 12, 1⟩ t.transaction_date &&
          dateLT t.transaction_date
            (if 12 = 12 then ⟨2024 + 1, 1, 1⟩ else ⟨2024, 12 + 1, 1⟩)).map
        Transaction.amount).sum) :=
  monthly_summary_half_open_range dbDecember 1 2024 12 (by decide) (by decide)
    (by decide) (by decide) (by decide)

end Julius
